import Mathlib

/-!
Verification development for the Gemini reverse proxy handler
(`src/api/index.py`, function `proxy_to_gemini`).

The handler is embedded as a pure function of:
  * the inbound request (path, header list as presented by the framework,
    raw body, environment credential string),
  * the per-request shuffle (passed in as a function on lists),
  * the upstream behaviour (a function from attempt index to outcome).

Python-level details that matter are modelled explicitly:
  * Python dicts over string keys are association lists with in-place
    replacement on exact key match (`dictInsert`);
  * `await request.body()` caches the body after the first read
    (`readBody`, with a read counter for the original source);
  * the local variable `response` is only assigned in the non-streaming
    branch; reading it unassigned raises `UnboundLocalError`, which the
    `except httpx.RequestError` clause does not catch, so the handler
    result is an `Except` value whose error side is an escaped exception.
-/

namespace GeminiProxy

/-- Upstream HTTP response as observed by one failover attempt. -/
structure UpstreamResp where
  status : Nat
  headers : List (String × String)
  body : String
deriving DecidableEq

/-- Outcome of one outbound attempt: a transport-level failure
(`httpx.RequestError`) or a received response. -/
inductive Outcome where
  | netError (desc : String)
  | resp (r : UpstreamResp)
deriving DecidableEq

/-- Response value the handler hands back to the caller:
`fastapi.responses.Response` (buffered, `isStream = false`) or
`StreamingResponse` (`isStream = true`). -/
structure HttpResponse where
  status : Nat
  headers : List (String × String)
  body : String
  mediaType : Option String
  isStream : Bool
deriving DecidableEq

/-- A Python exception escaping the handler uncaught. -/
inductive PyError where
  | unboundLocal (name : String)
deriving DecidableEq

/-- Record of one outbound attempt: which credential was injected, the
exact outbound header mapping, and the body that was sent
(`some bytes` when buffered; `none` when passed as a lazy stream). -/
structure AttemptRecord where
  key : String
  headers : List (String × String)
  sentBody : Option String
deriving DecidableEq

/-- Loop-carried state of the failover loop:
`lastError`/`lastStatus` are the Python locals of the same names,
`responseVar` is the Python local `response` (assigned only in the
non-streaming branch), `bodyCache` is Starlette's `Request._body`
cache, and `streamReads` counts reads of the original body source. -/
structure LoopState where
  lastError : Option String
  lastStatus : Nat
  responseVar : Option UpstreamResp
  bodyCache : Option String
  streamReads : Nat
deriving DecidableEq

/-- Initial loop state: `last_error = None`, `last_status = 500`,
no `response` assigned, inbound body not yet read. -/
def initState : LoopState :=
  { lastError := none, lastStatus := 500, responseVar := none,
    bodyCache := none, streamReads := 0 }

/-- Everything the handler observes of the inbound request and the
environment: the path, the header mapping as the framework presents it,
the raw inbound body source, and the `GOOGLE_API_KEYS` value. -/
structure ProxyInput where
  path : String
  headers : List (String × String)
  rawBody : String
  envKeys : String
deriving DecidableEq

/-- Overall observable behaviour of one handler invocation. -/
structure HandlerOutput where
  attempts : List AttemptRecord
  finalState : LoopState
  result : Except PyError HttpResponse

/-- ASCII lower-casing of one character, modelling Python's `str.lower`
on the ASCII range that header names and URL paths use. -/
def charLower (c : Char) : Char :=
  if 65 ≤ c.toNat ∧ c.toNat ≤ 90 then Char.ofNat (c.toNat + 32) else c

/-- `s.lower()` (ASCII range). -/
def lowerStr (s : String) : String := ⟨s.data.map charLower⟩

/-- The whitespace characters stripped by Python's `str.strip()`. -/
def isSpaceCh (c : Char) : Bool :=
  c == ' ' || c == '\t' || c == '\n' || c == '\r' || c == '\x0b' || c == '\x0c'

/-- Drop leading whitespace from a character list. -/
def dropLeading : List Char → List Char
  | [] => []
  | c :: cs => if isSpaceCh c then dropLeading cs else c :: cs

/-- `s.strip()`: drop leading and trailing whitespace. -/
def trimStr (s : String) : String :=
  ⟨(dropLeading ((dropLeading s.data).reverse)).reverse⟩

/-- Worker for `splitComma`, accumulating the current field reversed. -/
def splitCommaAux : List Char → List Char → List String
  | [], acc => [⟨acc.reverse⟩]
  | c :: cs, acc =>
      if c == ',' then ⟨acc.reverse⟩ :: splitCommaAux cs []
      else splitCommaAux cs (c :: acc)

/-- `s.split(',')`: split on every comma, keeping empty fields. -/
def splitComma (s : String) : List String := splitCommaAux s.data []

/-- Python dict assignment `d[k] = v` on an association list: replace the
value of an existing key in place (exact, case-sensitive match, like a
Python dict), otherwise append the binding at the end. -/
def dictInsert (k v : String) : List (String × String) → List (String × String)
  | [] => [(k, v)]
  | (k', v') :: rest => if k' = k then (k, v) :: rest else (k', v') :: dictInsert k v rest

/-- Starlette / httpx style case-insensitive header lookup with default
`""` (`request.headers.get('x-goog-api-key', '')`). -/
def headersGet (hs : List (String × String)) (k : String) : String :=
  match hs.find? (fun kv => lowerStr kv.1 == lowerStr k) with
  | some kv => kv.2
  | none => ""

/-- httpx style case-insensitive header lookup returning an `Option`
(`response.headers.get("content-type")`). -/
def headersGetOpt (hs : List (String × String)) (k : String) : Option String :=
  (hs.find? (fun kv => lowerStr kv.1 == lowerStr k)).map (fun kv => kv.2)

/-- `[key.strip() for key in s.split(',') if key.strip()]`. -/
def parseKeys (s : String) : List String :=
  ((splitComma s).map trimStr).filter (fun k => k != "")

/-- Does the character list start with the given needle? -/
def startsWithL : List Char → List Char → Bool
  | _, [] => true
  | [], _ :: _ => false
  | h :: hs, n :: ns => h == n && startsWithL hs ns

/-- Does the character list contain the needle as a contiguous run? -/
def containsL : List Char → List Char → Bool
  | [], needle => needle.isEmpty
  | h :: t, needle => startsWithL (h :: t) needle || containsL t needle

/-- Python `needle in hay` on strings. -/
def strContainsSub (hay needle : String) : Bool :=
  containsL hay.data needle.data

/-- `is_streaming = "stream" in path.lower()`. -/
def isStreaming (path : String) : Bool :=
  strContainsSub (lowerStr path) "stream"

/-- The `excluded_headers` list from the source. -/
def EXCLUDED_HEADERS : List String :=
  ["host", "x-real-ip", "x-forwarded-for", "x-forwarded-proto",
   "x-vercel-id", "x-vercel-deployment-url", "x-vercel-proxied-for",
   "x-goog-api-key"]

/-- The fixed `User-Agent` literal from the source. -/
def USER_AGENT : String :=
  "Mozilla/5.0 (Windows NT 10.0; Win64; x64) AppleWebKit/537.36 (KHTML, like Gecko) CherryStudio/1.5.1 Chrome/134.0.6998.205 Electron/35.6.0 Safari/537.36"

/-- Header preparation before the loop: drop every inbound header whose
lowercased key is in `excluded_headers`, then `headers['User-Agent'] = ...`. -/
def sanitizeHeaders (hs : List (String × String)) : List (String × String) :=
  dictInsert "User-Agent" USER_AGENT
    (hs.filter (fun kv => !(EXCLUDED_HEADERS.contains (lowerStr kv.1))))

/-- Credential extraction: header source first, environment fallback. -/
def extractKeys (hs : List (String × String)) (envKeys : String) : List String :=
  let fromHeader := parseKeys (headersGet hs "x-goog-api-key")
  if fromHeader = [] then parseKeys envKeys else fromHeader

/-- Body of the 400 response for missing credentials. -/
def MISSING_KEYS_BODY : String :=
  "\x7b\"error\": \"未提供 API 密钥。请在 \x27x-goog-api-key\x27 请求头或 GOOGLE_API_KEYS 环境变量中设置。\"\x7d"

/-- The recorded body for a transport error:
`f'{{"error": "Proxy fetch error", "details": "{error_message}"}}'`
with `error_message = f"无法连接到目标服务器: {e}"`. -/
def netErrBody (desc : String) : String :=
  "\x7b\"error\": \"Proxy fetch error\", \"details\": \"无法连接到目标服务器: " ++ desc ++ "\"\x7d"

/-- `await request.body()` with Starlette's caching: the original source
is consumed only on the first call, later calls return the cache. -/
def readBody (rawBody : String) (st : LoopState) : String × LoopState :=
  match st.bodyCache with
  | some b => (b, st)
  | none => (rawBody, { st with bodyCache := some rawBody, streamReads := st.streamReads + 1 })

/-- Header filtering applied only on the buffered success path
(source line 91): drop `content-encoding` and `transfer-encoding`,
case-insensitively. -/
def filterEncoding (hs : List (String × String)) : List (String × String) :=
  hs.filter (fun kv =>
    !(lowerStr kv.1 == "content-encoding" || lowerStr kv.1 == "transfer-encoding"))

/-- Result of one loop iteration: either fall to the next credential with
an updated state, or leave the loop with a final state and a result. -/
inductive StepRes where
  | nextKey (st : LoopState)
  | done (st : LoopState) (r : Except PyError HttpResponse)

/-- The shared classification at the bottom of the loop body
(source lines 95-104), applied to the Python variable `response`:
a 4xx is recorded and retried; anything else is returned with the
unfiltered header dict and no explicit media type. -/
def classifyTail (resp : UpstreamResp) (st : LoopState) : StepRes :=
  if 400 ≤ resp.status ∧ resp.status < 500 then
    .nextKey { st with lastError := some resp.body, lastStatus := resp.status }
  else
    .done st (.ok { status := resp.status, headers := resp.headers, body := resp.body,
                    mediaType := none, isStream := false })

/-- One iteration of the failover loop for the current credential, given
the attempt's outcome. Returns the body that was sent on the attempt
(`none` for the lazy streamed body) and the step result. In the
streaming branch a non-200 response falls through to the shared
classification, which reads the local `response`: if it was never
assigned, the iteration raises `UnboundLocalError`. -/
def stepAttempt (streaming : Bool) (rawBody : String) (oc : Outcome) (st : LoopState) :
    Option String × StepRes :=
  if streaming then
    (none,
      match oc with
      | .netError d =>
          .nextKey { st with lastError := some (netErrBody d), lastStatus := 502 }
      | .resp r =>
          if r.status = 200 then
            .done st (.ok { status := 200, headers := r.headers, body := r.body,
                            mediaType := headersGetOpt r.headers "content-type",
                            isStream := true })
          else
            match st.responseVar with
            | none => .done st (.error (PyError.unboundLocal "response"))
            | some resp => classifyTail resp st)
  else
    let rb := readBody rawBody st
    (some rb.1,
      match oc with
      | .netError d =>
          .nextKey { rb.2 with lastError := some (netErrBody d), lastStatus := 502 }
      | .resp r =>
          let st2 := { rb.2 with responseVar := some r }
          if r.status < 400 then
            .done st2 (.ok { status := r.status, headers := filterEncoding r.headers,
                             body := r.body,
                             mediaType := headersGetOpt r.headers "content-type",
                             isStream := false })
          else classifyTail r st2)

/-- The failover loop over the shuffled credential list. The `Nat`
argument is the index of the current attempt into the upstream
behaviour. On exhaustion it builds the final
`Response(content=last_error, status_code=last_status,
media_type="application/json")`. -/
def runLoop (streaming : Bool) (sanitized : List (String × String)) (rawBody : String)
    (upstream : Nat → Outcome) :
    List String → Nat → LoopState →
    List AttemptRecord × LoopState × Except PyError HttpResponse
  | [], _, st =>
      ([], st, .ok { status := st.lastStatus, headers := [], body := st.lastError.getD "",
                     mediaType := some "application/json", isStream := false })
  | key :: rest, i, st =>
      let step := stepAttempt streaming rawBody (upstream i) st
      let att : AttemptRecord :=
        { key := key, headers := dictInsert "x-goog-api-key" key sanitized,
          sentBody := step.1 }
      match step.2 with
      | .done st' res => ([att], st', res)
      | .nextKey st' =>
          let cont := runLoop streaming sanitized rawBody upstream rest (i + 1) st'
          (att :: cont.1, cont.2.1, cont.2.2)

/-- The handler `proxy_to_gemini`, as a function of the inbound request,
the per-request shuffle, and the upstream behaviour per attempt index. -/
def proxy_to_gemini (inp : ProxyInput) (shuffle : List String → List String)
    (upstream : Nat → Outcome) : HandlerOutput :=
  let apiKeys := extractKeys inp.headers inp.envKeys
  if apiKeys = [] then
    { attempts := [], finalState := initState,
      result := .ok { status := 400, headers := [], body := MISSING_KEYS_BODY,
                      mediaType := some "application/json", isStream := false } }
  else
    let keys := shuffle apiKeys
    let out := runLoop (isStreaming inp.path) (sanitizeHeaders inp.headers)
                 inp.rawBody upstream keys 0 initState
    { attempts := out.1, finalState := out.2.1, result := out.2.2 }

/-- Which attempt outcomes the loop records as a retried failure, and
what it records for them: transport errors record `(502, error body)`;
a response records `(status, body)` exactly when the request is
non-streaming and the status is in `[400, 500)` (a streaming non-200
response raises instead of recording). -/
def recordedFailure (streaming : Bool) : Outcome → Option (Nat × String)
  | .netError d => some (502, netErrBody d)
  | .resp r =>
      if streaming = false ∧ 400 ≤ r.status ∧ r.status < 500 then some (r.status, r.body)
      else none

/-! ### Concrete instances used by witnesses and counterexamples -/

/-- Non-streaming request with three credentials. -/
def c6Inp : ProxyInput :=
  { path := "v1/models", headers := [("x-goog-api-key", "k1,k2,k3")],
    rawBody := "the body", envKeys := "" }

/-- Upstream answering 429 on every attempt. -/
def c6Up : Nat → Outcome :=
  fun _ => Outcome.resp { status := 429, headers := [], body := "limit" }

/-- Non-streaming request whose inbound headers carry a lowercase
`user-agent` entry, the credential header, and `host`. -/
def c7SpoofInp : ProxyInput :=
  { path := "v1/models",
    headers := [("user-agent", "SpoofedAgent"), ("x-goog-api-key", "k1"),
                ("host", "example.com")],
    rawBody := "", envKeys := "" }

/-- Request with one credential and a `host` header. -/
def c7Inp : ProxyInput :=
  { path := "v1", headers := [("x-goog-api-key", "k1"), ("host", "h")],
    rawBody := "", envKeys := "" }

/-- The single attempt record the handler produces for `c7Inp`. -/
def c7Att : AttemptRecord :=
  { key := "k1", headers := [("User-Agent", USER_AGENT), ("x-goog-api-key", "k1")],
    sentBody := some "" }

/-- Upstream answering 200 with no headers on every attempt. -/
def c7Up : Nat → Outcome :=
  fun _ => Outcome.resp { status := 200, headers := [], body := "ok" }

/-! ### Helper lemmas -/

theorem mem_dictInsert_self (k v : String) (l : List (String × String)) :
    (k, v) ∈ dictInsert k v l := by
  induction l with
  | nil => simp [dictInsert]
  | cons hd tl ih =>
      obtain ⟨k', v'⟩ := hd
      by_cases h : k' = k
      · simp [dictInsert, h]
      · simp only [dictInsert, if_neg h]
        exact List.mem_cons_of_mem _ ih

theorem mem_dictInsert (kv : String × String) (k v : String) (l : List (String × String))
    (h : kv ∈ dictInsert k v l) : kv = (k, v) ∨ kv ∈ l := by
  induction l with
  | nil => simpa [dictInsert] using h
  | cons hd tl ih =>
      obtain ⟨k', v'⟩ := hd
      by_cases hk : k' = k
      · simp only [dictInsert, if_pos hk] at h
        rcases List.mem_cons.mp h with h1 | h1
        · exact Or.inl h1
        · exact Or.inr (List.mem_cons_of_mem _ h1)
      · simp only [dictInsert, if_neg hk] at h
        rcases List.mem_cons.mp h with h1 | h1
        · exact Or.inr (by simp [h1])
        · rcases ih h1 with h2 | h2
          · exact Or.inl h2
          · exact Or.inr (List.mem_cons_of_mem _ h2)

theorem mem_dictInsert_of_ne (kv : String × String) (k v : String)
    (l : List (String × String)) (hm : kv ∈ l) (hk : kv.1 ≠ k) :
    kv ∈ dictInsert k v l := by
  induction l with
  | nil => cases hm
  | cons hd tl ih =>
      obtain ⟨k', v'⟩ := hd
      by_cases h : k' = k
      · simp only [dictInsert, if_pos h]
        rcases List.mem_cons.mp hm with h' | h'
        · exfalso; apply hk; rw [h'] at *; simpa using h
        · exact List.mem_cons_of_mem _ h'
      · simp only [dictInsert, if_neg h]
        rcases List.mem_cons.mp hm with h' | h'
        · exact h' ▸ List.mem_cons_self _ _
        · exact List.mem_cons_of_mem _ (ih h')

/-! Step equations for `stepAttempt`, one per source-level branch. -/

theorem stepAttempt_stream_netError (rawBody d : String) (st : LoopState) :
    stepAttempt true rawBody (.netError d) st =
      (none, .nextKey { st with lastError := some (netErrBody d), lastStatus := 502 }) := rfl

theorem stepAttempt_buf_netError (rawBody d : String) (st : LoopState) :
    stepAttempt false rawBody (.netError d) st =
      (some (readBody rawBody st).1,
       .nextKey { (readBody rawBody st).2 with
                    lastError := some (netErrBody d), lastStatus := 502 }) := rfl

theorem stepAttempt_buf_success (rawBody : String) (r : UpstreamResp) (st : LoopState)
    (h : r.status < 400) :
    stepAttempt false rawBody (.resp r) st =
      (some (readBody rawBody st).1,
       .done { (readBody rawBody st).2 with responseVar := some r }
         (.ok { status := r.status, headers := filterEncoding r.headers, body := r.body,
                mediaType := headersGetOpt r.headers "content-type", isStream := false })) := by
  simp [stepAttempt, if_pos h]

theorem stepAttempt_buf_4xx (rawBody : String) (r : UpstreamResp) (st : LoopState)
    (h4 : 400 ≤ r.status) (h5 : r.status < 500) :
    stepAttempt false rawBody (.resp r) st =
      (some (readBody rawBody st).1,
       .nextKey { (readBody rawBody st).2 with
                    responseVar := some r, lastError := some r.body,
                    lastStatus := r.status }) := by
  have hn : ¬ r.status < 400 := by omega
  simp [stepAttempt, if_neg hn, classifyTail, if_pos (And.intro h4 h5)]

theorem stepAttempt_buf_5xx (rawBody : String) (r : UpstreamResp) (st : LoopState)
    (h : 500 ≤ r.status) :
    stepAttempt false rawBody (.resp r) st =
      (some (readBody rawBody st).1,
       .done { (readBody rawBody st).2 with responseVar := some r }
         (.ok { status := r.status, headers := r.headers, body := r.body,
                mediaType := none, isStream := false })) := by
  have hn : ¬ r.status < 400 := by omega
  have hc : ¬ (400 ≤ r.status ∧ r.status < 500) := by omega
  simp [stepAttempt, if_neg hn, classifyTail, if_neg hc]

theorem stepAttempt_stream_200 (rawBody : String) (r : UpstreamResp) (st : LoopState)
    (h : r.status = 200) :
    stepAttempt true rawBody (.resp r) st =
      (none, .done st (.ok { status := 200, headers := r.headers, body := r.body,
                             mediaType := headersGetOpt r.headers "content-type",
                             isStream := true })) := by
  simp [stepAttempt, if_pos h]

theorem stepAttempt_stream_non200 (rawBody : String) (r : UpstreamResp) (st : LoopState)
    (h : ¬ r.status = 200) (hrv : st.responseVar = none) :
    stepAttempt true rawBody (.resp r) st =
      (none, .done st (.error (PyError.unboundLocal "response"))) := by
  simp [stepAttempt, if_neg h, hrv]

/-! Unfolding equations for `runLoop`. -/

theorem runLoop_nil (streaming : Bool) (sanitized : List (String × String))
    (rawBody : String) (upstream : Nat → Outcome) (i : Nat) (st : LoopState) :
    runLoop streaming sanitized rawBody upstream [] i st =
      ([], st, .ok { status := st.lastStatus, headers := [], body := st.lastError.getD "",
                     mediaType := some "application/json", isStream := false }) := rfl

theorem runLoop_cons_next (streaming : Bool) (sanitized : List (String × String))
    (rawBody : String) (upstream : Nat → Outcome) (key : String) (rest : List String)
    (i : Nat) (st st' : LoopState) (sb : Option String)
    (h : stepAttempt streaming rawBody (upstream i) st = (sb, .nextKey st')) :
    runLoop streaming sanitized rawBody upstream (key :: rest) i st =
      ({ key := key, headers := dictInsert "x-goog-api-key" key sanitized, sentBody := sb } ::
         (runLoop streaming sanitized rawBody upstream rest (i + 1) st').1,
       (runLoop streaming sanitized rawBody upstream rest (i + 1) st').2.1,
       (runLoop streaming sanitized rawBody upstream rest (i + 1) st').2.2) := by
  simp [runLoop, h]

theorem runLoop_cons_done (streaming : Bool) (sanitized : List (String × String))
    (rawBody : String) (upstream : Nat → Outcome) (key : String) (rest : List String)
    (i : Nat) (st st' : LoopState) (sb : Option String) (res : Except PyError HttpResponse)
    (h : stepAttempt streaming rawBody (upstream i) st = (sb, .done st' res)) :
    runLoop streaming sanitized rawBody upstream (key :: rest) i st =
      ([{ key := key, headers := dictInsert "x-goog-api-key" key sanitized, sentBody := sb }],
       st', res) := by
  simp [runLoop, h]

/-- A recorded-failure step: when `recordedFailure` classifies the outcome
as recorded and retried, the iteration falls to the next credential with
the failure stored in the loop state. -/
theorem stepAttempt_recorded (streaming : Bool) (rawBody : String) (oc : Outcome)
    (st : LoopState) (p : Nat × String)
    (h : recordedFailure streaming oc = some p) :
    ∃ sb st', stepAttempt streaming rawBody oc st = (sb, .nextKey st') ∧
      st'.lastStatus = p.1 ∧ st'.lastError = some p.2 := by
  cases oc with
  | netError d =>
      have hp : p = (502, netErrBody d) := by
        simpa [recordedFailure, eq_comm] using h
      cases streaming with
      | true =>
          exact ⟨none, _, stepAttempt_stream_netError rawBody d st, by simp [hp], by simp [hp]⟩
      | false =>
          exact ⟨_, _, stepAttempt_buf_netError rawBody d st, by simp [hp], by simp [hp]⟩
  | resp r =>
      simp only [recordedFailure] at h
      split at h
      · rename_i hc
        obtain ⟨hs, h4, h5⟩ := hc
        have hp : p = (r.status, r.body) := (Option.some.inj h).symm
        subst hs
        exact ⟨_, _, stepAttempt_buf_4xx rawBody r st h4 h5, by simp [hp], by simp [hp]⟩
      · exact absurd h (by simp)

/-- Exhaustion: when every attempt in the remaining credential list yields
a recorded, retried failure, the loop walks the whole list and the final
response is built from the failure recorded for the last attempt. -/
theorem runLoop_all_fail (streaming : Bool) (sanitized : List (String × String))
    (rawBody : String) (upstream : Nat → Outcome) :
    ∀ (keys : List String) (i : Nat) (st : LoopState) (p : Nat × String),
      keys ≠ [] →
      (∀ j, j < keys.length → (recordedFailure streaming (upstream (i + j))).isSome) →
      recordedFailure streaming (upstream (i + keys.length - 1)) = some p →
      (runLoop streaming sanitized rawBody upstream keys i st).1.length = keys.length ∧
      (runLoop streaming sanitized rawBody upstream keys i st).2.2 =
        .ok { status := p.1, headers := [], body := p.2,
              mediaType := some "application/json", isStream := false } := by
  intro keys
  induction keys with
  | nil => intro i st p hne _ _; exact absurd rfl hne
  | cons key rest ih =>
      intro i st p _ hall hlast
      have h0 : (recordedFailure streaming (upstream (i + 0))).isSome :=
        hall 0 (by simp)
      rw [Nat.add_zero] at h0
      obtain ⟨p0, hp0⟩ := Option.isSome_iff_exists.mp h0
      obtain ⟨sb, st', hstep, hs1, hs2⟩ :=
        stepAttempt_recorded streaming rawBody (upstream i) st p0 hp0
      rw [runLoop_cons_next streaming sanitized rawBody upstream key rest i st st' sb hstep]
      cases rest with
      | nil =>
          have hpe : p0 = p := by
            have h1 : recordedFailure streaming (upstream i) = some p := by
              simpa using hlast
            rw [hp0] at h1
            exact Option.some.inj h1
          refine ⟨by simp [runLoop_nil], ?_⟩
          simp [runLoop_nil, hs1, hs2, hpe]
      | cons key2 rest2 =>
          have hall2 : ∀ j, j < (key2 :: rest2).length →
              (recordedFailure streaming (upstream (i + 1 + j))).isSome := by
            intro j hj
            have hj2 : j + 1 < (key :: key2 :: rest2).length := by
              simp only [List.length_cons] at hj ⊢; omega
            have := hall (j + 1) hj2
            rwa [show i + (j + 1) = i + 1 + j by omega] at this
          have hlast2 : recordedFailure streaming
              (upstream (i + 1 + (key2 :: rest2).length - 1)) = some p := by
            have he : i + 1 + (key2 :: rest2).length - 1 =
                i + (key :: key2 :: rest2).length - 1 := by
              simp only [List.length_cons]; omega
            rw [he]; exact hlast
          obtain ⟨hlen, hres⟩ := ih (i + 1) st' p (by simp) hall2 hlast2
          refine ⟨by simp [hlen], by simpa using hres⟩

/-- Every attempt's outbound headers are the once-sanitized headers with
the current credential written into `x-goog-api-key`. -/
theorem runLoop_attempt_headers (streaming : Bool) (sanitized : List (String × String))
    (rawBody : String) (upstream : Nat → Outcome) :
    ∀ (keys : List String) (i : Nat) (st : LoopState) (a : AttemptRecord),
      a ∈ (runLoop streaming sanitized rawBody upstream keys i st).1 →
      a.headers = dictInsert "x-goog-api-key" a.key sanitized := by
  intro keys
  induction keys with
  | nil => intro i st a ha; simp [runLoop_nil] at ha
  | cons key rest ih =>
      intro i st a ha
      rcases hstep : stepAttempt streaming rawBody (upstream i) st with ⟨sb, sres⟩
      cases sres with
      | nextKey st' =>
          rw [runLoop_cons_next streaming sanitized rawBody upstream key rest i st st' sb hstep]
            at ha
          rcases List.mem_cons.mp ha with h | h
          · simp [h]
          · exact ih (i + 1) st' a h
      | done st' res =>
          rw [runLoop_cons_done streaming sanitized rawBody upstream key rest i st st' sb res
            hstep] at ha
          rcases List.mem_cons.mp ha with h | h
          · simp [h]
          · simp at h

/-- Shape of a non-streaming iteration: it always sends the bytes returned
by `readBody`, and the state it hands on preserves the cache and the
source-read counter produced by that `readBody` call. -/
theorem stepAttempt_false_shape (rawBody : String) (oc : Outcome) (st : LoopState) :
    ∃ st', (stepAttempt false rawBody oc st = (some (readBody rawBody st).1, .nextKey st') ∨
            ∃ res, stepAttempt false rawBody oc st = (some (readBody rawBody st).1, .done st' res)) ∧
      st'.bodyCache = (readBody rawBody st).2.bodyCache ∧
      st'.streamReads = (readBody rawBody st).2.streamReads := by
  cases oc with
  | netError d =>
      exact ⟨_, Or.inl (stepAttempt_buf_netError rawBody d st), rfl, rfl⟩
  | resp r =>
      by_cases h4 : r.status < 400
      · exact ⟨_, Or.inr ⟨_, stepAttempt_buf_success rawBody r st h4⟩, rfl, rfl⟩
      · by_cases h5 : r.status < 500
        · exact ⟨_, Or.inl (stepAttempt_buf_4xx rawBody r st (by omega) h5), rfl, rfl⟩
        · exact ⟨_, Or.inr ⟨_, stepAttempt_buf_5xx rawBody r st (by omega)⟩, rfl, rfl⟩

/-- Once the body cache holds the raw body, a non-streaming run never
touches the original source again and every attempt sends the cached
bytes. -/
theorem runLoop_false_cached (sanitized : List (String × String)) (rawBody : String)
    (upstream : Nat → Outcome) :
    ∀ (keys : List String) (i : Nat) (st : LoopState),
      st.bodyCache = some rawBody →
      (runLoop false sanitized rawBody upstream keys i st).2.1.bodyCache = some rawBody ∧
      (runLoop false sanitized rawBody upstream keys i st).2.1.streamReads = st.streamReads ∧
      (∀ a ∈ (runLoop false sanitized rawBody upstream keys i st).1,
        a.sentBody = some rawBody) := by
  intro keys
  induction keys with
  | nil => intro i st hc; simp [runLoop_nil, hc]
  | cons key rest ih =>
      intro i st hc
      have hrb : readBody rawBody st = (rawBody, st) := by simp [readBody, hc]
      obtain ⟨st', hor, hcache', hreads'⟩ := stepAttempt_false_shape rawBody (upstream i) st
      simp only [hrb] at hor hcache' hreads'
      rcases hor with hstep | ⟨res, hstep⟩
      · rw [runLoop_cons_next false sanitized rawBody upstream key rest i st st' _ hstep]
        obtain ⟨ih1, ih2, ih3⟩ := ih (i + 1) st' (hcache'.trans hc)
        refine ⟨ih1, ih2.trans hreads', ?_⟩
        intro a ha
        rcases List.mem_cons.mp ha with h | h
        · simp [h]
        · exact ih3 a h
      · rw [runLoop_cons_done false sanitized rawBody upstream key rest i st st' _ res hstep]
        refine ⟨hcache'.trans hc, hreads', ?_⟩
        intro a ha
        rcases List.mem_cons.mp ha with h | h
        · simp [h]
        · simp at h

/-- `readBody` on the initial state: the original source is consumed and
cached, and the read counter becomes one. -/
theorem readBody_initState (rawBody : String) :
    readBody rawBody initState =
      (rawBody, { initState with bodyCache := some rawBody, streamReads := 1 }) := rfl

/-- A non-streaming run starting from the initial state reads the original
body source at most once — exactly once as soon as any attempt is made —
and every attempt sends the same raw bytes. -/
theorem runLoop_false_body_once (sanitized : List (String × String)) (rawBody : String)
    (upstream : Nat → Outcome) (keys : List String) (i : Nat) :
    (runLoop false sanitized rawBody upstream keys i initState).2.1.streamReads ≤ 1 ∧
    ((runLoop false sanitized rawBody upstream keys i initState).1 ≠ [] →
      (runLoop false sanitized rawBody upstream keys i initState).2.1.streamReads = 1) ∧
    (∀ a ∈ (runLoop false sanitized rawBody upstream keys i initState).1,
      a.sentBody = some rawBody) := by
  cases keys with
  | nil => simp [runLoop_nil, initState]
  | cons key rest =>
      obtain ⟨st', hor, hcache', hreads'⟩ :=
        stepAttempt_false_shape rawBody (upstream i) initState
      simp only [readBody_initState] at hor hcache' hreads'
      rcases hor with hstep | ⟨res, hstep⟩
      · rw [runLoop_cons_next false sanitized rawBody upstream key rest i initState st' _ hstep]
        obtain ⟨ih1, ih2, ih3⟩ :=
          runLoop_false_cached sanitized rawBody upstream rest (i + 1) st' hcache'
        refine ⟨by simp [ih2, hreads'], fun _ => ih2.trans hreads', ?_⟩
        intro a ha
        rcases List.mem_cons.mp ha with h | h
        · simp [h]
        · exact ih3 a h
      · rw [runLoop_cons_done false sanitized rawBody upstream key rest i initState st' _ res
          hstep]
        refine ⟨by simp [hreads'], fun _ => hreads', ?_⟩
        intro a ha
        rcases List.mem_cons.mp ha with h | h
        · simp [h]
        · simp at h

/-- Unfolding of the handler when credential extraction succeeds. -/
theorem proxy_ne_empty (inp : ProxyInput) (shuffle : List String → List String)
    (upstream : Nat → Outcome) (h : extractKeys inp.headers inp.envKeys ≠ []) :
    proxy_to_gemini inp shuffle upstream =
      { attempts := (runLoop (isStreaming inp.path) (sanitizeHeaders inp.headers) inp.rawBody
                      upstream (shuffle (extractKeys inp.headers inp.envKeys)) 0 initState).1,
        finalState := (runLoop (isStreaming inp.path) (sanitizeHeaders inp.headers) inp.rawBody
                        upstream (shuffle (extractKeys inp.headers inp.envKeys)) 0 initState).2.1,
        result := (runLoop (isStreaming inp.path) (sanitizeHeaders inp.headers) inp.rawBody
                    upstream (shuffle (extractKeys inp.headers inp.envKeys)) 0 initState).2.2 } := by
  simp [proxy_to_gemini, h]

/-- Unfolding of the handler when both credential sources come up empty. -/
theorem proxy_empty (inp : ProxyInput) (shuffle : List String → List String)
    (upstream : Nat → Outcome) (h : extractKeys inp.headers inp.envKeys = []) :
    proxy_to_gemini inp shuffle upstream =
      { attempts := [], finalState := initState,
        result := .ok { status := 400, headers := [], body := MISSING_KEYS_BODY,
                        mediaType := some "application/json", isStream := false } } := by
  simp [proxy_to_gemini, h]

/-- A permuting shuffle sends a non-empty pool to a non-empty list. -/
theorem shuffle_ne_empty (shuffle : List String → List String) (l : List String)
    (hsh : ∀ l', (shuffle l').Perm l') (hne : l ≠ []) : shuffle l ≠ [] := by
  intro h
  apply hne
  have hlen := (hsh l).length_eq
  rw [h, List.length_nil] at hlen
  exact List.length_eq_zero.mp hlen.symm

/-- Membership implies `contains` for string lists. -/
theorem contains_of_mem (l : List String) (x : String) (h : x ∈ l) :
    l.contains x = true := by
  induction l with
  | nil => cases h
  | cons hd tl ih =>
      rw [List.contains_cons]
      rcases List.mem_cons.mp h with h1 | h1
      · simp [h1]
      · simp only [Bool.or_eq_true]
        exact Or.inr (ih h1)

/-! ### Claim theorems -/

/-- C1: counter-evidence for the claim that a streaming-classified attempt
receiving a non-200 response is classified like a buffered attempt (4xx
recorded as the latest failure, loop continues). On a streaming path with
two credentials whose first attempt returns 404, the code makes exactly
one attempt and the handler terminates with an escaped
`UnboundLocalError` on the local `response` — a variable assigned only in
the non-streaming branch — instead of recording the 404 and moving to the
next credential. -/
theorem C1_streaming_non200_raises :
    (proxy_to_gemini { path := "v1beta/models/gemini:streamGenerateContent",
                       headers := [("x-goog-api-key", "k1,k2")],
                       rawBody := "", envKeys := "" }
       id (fun _ => .resp { status := 404, headers := [], body := "not found" })).result
      = .error (PyError.unboundLocal "response") ∧
    (proxy_to_gemini { path := "v1beta/models/gemini:streamGenerateContent",
                       headers := [("x-goog-api-key", "k1,k2")],
                       rawBody := "", envKeys := "" }
       id (fun _ => .resp { status := 404, headers := [], body := "not found" })).attempts.length
      = 1 :=
  ⟨rfl, rfl⟩

/-- C2: counter-evidence for the claim that the handler always terminates
with a well-formed HTTP response. On a streaming-classified path whose
first attempt receives a 403 response, the handler terminates with an
escaped `UnboundLocalError` instead of any HTTP response. -/
theorem C2_exception_escapes :
    (proxy_to_gemini { path := "upload/streamUpload",
                       headers := [("x-goog-api-key", "a,b")],
                       rawBody := "body", envKeys := "" }
       id (fun _ => .resp { status := 403, headers := [], body := "forbidden" })).result
      = .error (PyError.unboundLocal "response") :=
  rfl

/-- C3: counter-evidence for the claim that a status `≥ 500` response at
attempt `k` is always returned unchanged. On a streaming-classified path,
a 500 response at the first attempt makes the handler raise
`UnboundLocalError` — the shared return path reads the never-assigned
local `response` — instead of returning the 5xx response. (No later
credential is attempted, but nothing is returned either.) -/
theorem C3_streaming_5xx_raises :
    (proxy_to_gemini { path := "v1/stream/x", headers := [("x-goog-api-key", "k1,k2")],
                       rawBody := "", envKeys := "" }
       id (fun _ => .resp { status := 500, headers := [("h", "v")], body := "boom" })).result
      = .error (PyError.unboundLocal "response") :=
  rfl

/-- C4: when the pool is non-empty and every attempted credential yields a
recorded, retried failure (a 4xx response on a non-streaming request, or
a network error), exhausting the pool returns exactly the status and body
recorded for the LAST attempted credential in shuffled order. -/
theorem C4_exhaustion_returns_last_failure (inp : ProxyInput)
    (shuffle : List String → List String) (upstream : Nat → Outcome) (p : Nat × String)
    (hsh : ∀ l, (shuffle l).Perm l)
    (hne : extractKeys inp.headers inp.envKeys ≠ [])
    (hall : ∀ j, j < (shuffle (extractKeys inp.headers inp.envKeys)).length →
        (recordedFailure (isStreaming inp.path) (upstream j)).isSome)
    (hlast : recordedFailure (isStreaming inp.path)
        (upstream ((shuffle (extractKeys inp.headers inp.envKeys)).length - 1)) = some p) :
    (proxy_to_gemini inp shuffle upstream).result =
      .ok { status := p.1, headers := [], body := p.2,
            mediaType := some "application/json", isStream := false } := by
  have hkeys := shuffle_ne_empty shuffle (extractKeys inp.headers inp.envKeys) hsh hne
  rw [proxy_ne_empty inp shuffle upstream hne]
  obtain ⟨_, hres⟩ := runLoop_all_fail (isStreaming inp.path) (sanitizeHeaders inp.headers)
    inp.rawBody upstream (shuffle (extractKeys inp.headers inp.envKeys)) 0 initState p hkeys
    (by intro j hj; simpa using hall j hj) (by simpa using hlast)
  exact hres

/-- C4 witness: two credentials on a non-streaming path, first attempt
401, second 403 — the exhaustion response carries the second (last)
recorded failure, not the first. -/
theorem C4_exhaustion_returns_last_failure_witness :
    (proxy_to_gemini { path := "v1/models", headers := [("x-goog-api-key", "k1,k2")],
                       rawBody := "", envKeys := "" }
       id (fun j => if j = 0 then .resp { status := 401, headers := [], body := "first" }
                    else .resp { status := 403, headers := [], body := "second" })).result =
      .ok { status := 403, headers := [], body := "second",
            mediaType := some "application/json", isStream := false } :=
  C4_exhaustion_returns_last_failure _ _ _ (403, "second")
    (fun l => List.Perm.refl l) (by decide)
    (by
      intro j hj
      have hj2 : j < 2 := hj
      interval_cases j
      · decide
      · decide)
    (by decide)

/-- C5 counterexample: the claim says the immediate 5xx failure return
also excludes `content-encoding` and `transfer-encoding`; in the code the
5xx return relays `dict(response.headers)` unfiltered, so both encoding
headers survive into the response handed to the caller. -/
theorem C5_5xx_headers_unfiltered :
    (proxy_to_gemini { path := "v1/models:generateContent",
                       headers := [("x-goog-api-key", "k")], rawBody := "", envKeys := "" }
       id (fun _ => .resp { status := 503,
                            headers := [("content-encoding", "gzip"),
                                        ("transfer-encoding", "chunked")],
                            body := "unavailable" })).result
      = .ok { status := 503,
              headers := [("content-encoding", "gzip"), ("transfer-encoding", "chunked")],
              body := "unavailable", mediaType := none, isStream := false } :=
  rfl

/-- C5 amended: only the buffered success return (status `< 400`) filters
the relayed headers, dropping `content-encoding` and `transfer-encoding`
case-insensitively while passing every other upstream header through; the
immediate 5xx failure return relays ALL upstream headers unchanged,
including any encoding headers. -/
theorem C5_encoding_filter_success_only (sanitized : List (String × String))
    (rawBody : String) (upstream : Nat → Outcome) (key : String) (rest : List String)
    (i : Nat) (st : LoopState) (r : UpstreamResp)
    (hui : upstream i = .resp r) :
    (r.status < 400 →
      (runLoop false sanitized rawBody upstream (key :: rest) i st).2.2 =
        .ok { status := r.status, headers := filterEncoding r.headers, body := r.body,
              mediaType := headersGetOpt r.headers "content-type", isStream := false }) ∧
    (500 ≤ r.status →
      (runLoop false sanitized rawBody upstream (key :: rest) i st).2.2 =
        .ok { status := r.status, headers := r.headers, body := r.body,
              mediaType := none, isStream := false }) := by
  constructor
  · intro h
    have hstep := stepAttempt_buf_success rawBody r st h
    rw [← hui] at hstep
    rw [runLoop_cons_done false sanitized rawBody upstream key rest i st _ _ _ hstep]
  · intro h
    have hstep := stepAttempt_buf_5xx rawBody r st h
    rw [← hui] at hstep
    rw [runLoop_cons_done false sanitized rawBody upstream key rest i st _ _ _ hstep]

/-- C5 witness: a 200 response loses its `content-encoding` header but
keeps a custom one; a 502 response keeps its `transfer-encoding` header. -/
theorem C5_encoding_filter_success_only_witness :
    ((runLoop false [] "" (fun _ => Outcome.resp { status := 200, headers := [("content-encoding", "gzip"), ("x-custom", "v")], body := "ok" })
        ["k"] 0 initState).2.2 =
      .ok { status := 200, headers := [("x-custom", "v")], body := "ok",
            mediaType := none, isStream := false }) ∧
    ((runLoop false [] "" (fun _ => Outcome.resp { status := 502, headers := [("transfer-encoding", "chunked")], body := "bad" })
        ["k"] 0 initState).2.2 =
      .ok { status := 502, headers := [("transfer-encoding", "chunked")], body := "bad",
            mediaType := none, isStream := false }) :=
  ⟨(C5_encoding_filter_success_only [] "" _ "k" [] 0 initState _ rfl).1 (by decide),
   (C5_encoding_filter_success_only [] "" _ "k" [] 0 initState _ rfl).2 (by decide)⟩

/-- C6: on a non-streaming request the inbound body is read from its
original source at most once — exactly once as soon as any attempt is
made, i.e. at the first attempt — and every credential attempt in the
failover loop sends the identical buffered bytes. -/
theorem C6_body_buffered_once (inp : ProxyInput) (shuffle : List String → List String)
    (upstream : Nat → Outcome) (hstream : isStreaming inp.path = false) :
    (∀ a ∈ (proxy_to_gemini inp shuffle upstream).attempts,
      a.sentBody = some inp.rawBody) ∧
    (proxy_to_gemini inp shuffle upstream).finalState.streamReads ≤ 1 ∧
    ((proxy_to_gemini inp shuffle upstream).attempts ≠ [] →
      (proxy_to_gemini inp shuffle upstream).finalState.streamReads = 1) := by
  by_cases hne : extractKeys inp.headers inp.envKeys = []
  · rw [proxy_empty inp shuffle upstream hne]
    exact ⟨by simp, by simp [initState], by simp⟩
  · rw [proxy_ne_empty inp shuffle upstream hne, hstream]
    obtain ⟨h1, h2, h3⟩ := runLoop_false_body_once (sanitizeHeaders inp.headers) inp.rawBody
      upstream (shuffle (extractKeys inp.headers inp.envKeys)) 0
    exact ⟨h3, h1, h2⟩

/-- C6 witness: three credentials all answering 429 on a non-streaming
path; the original source is read once and each attempt sends the same
buffered body. -/
theorem C6_body_buffered_once_witness :
    (∀ a ∈ (proxy_to_gemini c6Inp id c6Up).attempts, a.sentBody = some c6Inp.rawBody) ∧
    (proxy_to_gemini c6Inp id c6Up).finalState.streamReads ≤ 1 ∧
    ((proxy_to_gemini c6Inp id c6Up).attempts ≠ [] →
      (proxy_to_gemini c6Inp id c6Up).finalState.streamReads = 1) :=
  C6_body_buffered_once c6Inp id c6Up (by decide)

/-- C7 counterexample: the framework presents inbound header keys in
lowercase, and `headers['User-Agent'] = ...` adds a separate dict entry
instead of replacing the lowercase one — so an inbound `user-agent` value
survives sanitisation and is sent on the attempt alongside the fixed
literal. The outbound client-identity header therefore does not simply
equal the fixed literal for every inbound header mapping. -/
theorem C7_inbound_user_agent_survives :
    (proxy_to_gemini c7SpoofInp id c7Up).attempts
      = [{ key := "k1",
           headers := [("user-agent", "SpoofedAgent"), ("User-Agent", USER_AGENT),
                       ("x-goog-api-key", "k1")],
           sentBody := some "" }] :=
  rfl

/-- C7 amended: every attempt's outbound headers are the once-sanitised
inbound headers with the current credential written under the exact key
`x-goog-api-key`. No header whose lowercased key is `host`, a
client-IP/forwarding header, the forwarded-protocol header, or a platform
identifier survives; any entry whose lowercased key is `x-goog-api-key`
is exactly the injected credential entry (never an inbound value); and
the fixed literal is present under the exact key `User-Agent`. Inbound
entries under any other key — including a lowercase `user-agent` — pass
through unchanged, so the client-identity header is only guaranteed to be
the fixed literal under the exact key `User-Agent`, not case-insensitively. -/
theorem C7_sanitization (inp : ProxyInput) (shuffle : List String → List String)
    (upstream : Nat → Outcome) (a : AttemptRecord)
    (ha : a ∈ (proxy_to_gemini inp shuffle upstream).attempts) :
    a.headers = dictInsert "x-goog-api-key" a.key (sanitizeHeaders inp.headers) ∧
    (∀ kv ∈ a.headers,
      lowerStr kv.1 ∉ (["host", "x-real-ip", "x-forwarded-for", "x-forwarded-proto",
        "x-vercel-id", "x-vercel-deployment-url", "x-vercel-proxied-for"] : List String)) ∧
    (∀ kv ∈ a.headers, lowerStr kv.1 = "x-goog-api-key" → kv = ("x-goog-api-key", a.key)) ∧
    ("User-Agent", USER_AGENT) ∈ a.headers := by
  have hshape : a.headers = dictInsert "x-goog-api-key" a.key (sanitizeHeaders inp.headers) := by
    by_cases hne : extractKeys inp.headers inp.envKeys = []
    · rw [proxy_empty inp shuffle upstream hne] at ha
      simp at ha
    · rw [proxy_ne_empty inp shuffle upstream hne] at ha
      exact runLoop_attempt_headers (isStreaming inp.path) (sanitizeHeaders inp.headers)
        inp.rawBody upstream (shuffle (extractKeys inp.headers inp.envKeys)) 0 initState a ha
  have hsub : ∀ x ∈ (["host", "x-real-ip", "x-forwarded-for", "x-forwarded-proto",
      "x-vercel-id", "x-vercel-deployment-url", "x-vercel-proxied-for"] : List String),
      x ∈ EXCLUDED_HEADERS := by decide
  refine ⟨hshape, ?_, ?_, ?_⟩
  · intro kv hkv hmem
    rw [hshape] at hkv
    rcases mem_dictInsert kv _ _ _ hkv with h1 | h1
    · have hk1 : kv.1 = "x-goog-api-key" := by rw [h1]
      rw [hk1] at hmem
      exact absurd hmem (by decide)
    · simp only [sanitizeHeaders] at h1
      rcases mem_dictInsert kv _ _ _ h1 with h2 | h2
      · have hk1 : kv.1 = "User-Agent" := by rw [h2]
        rw [hk1] at hmem
        exact absurd hmem (by decide)
      · obtain ⟨_, hp⟩ := List.mem_filter.mp h2
        have hcon := contains_of_mem EXCLUDED_HEADERS (lowerStr kv.1) (hsub _ hmem)
        rw [hcon] at hp
        exact absurd hp (by decide)
  · intro kv hkv heq
    rw [hshape] at hkv
    rcases mem_dictInsert kv _ _ _ hkv with h1 | h1
    · exact h1
    · exfalso
      simp only [sanitizeHeaders] at h1
      rcases mem_dictInsert kv _ _ _ h1 with h2 | h2
      · have hk1 : kv.1 = "User-Agent" := by rw [h2]
        rw [hk1] at heq
        exact absurd heq (by decide)
      · obtain ⟨_, hp⟩ := List.mem_filter.mp h2
        rw [heq] at hp
        exact absurd hp (by decide)
  · rw [hshape]
    apply mem_dictInsert_of_ne ("User-Agent", USER_AGENT) "x-goog-api-key" a.key
      (sanitizeHeaders inp.headers) ?_ (by decide)
    simp only [sanitizeHeaders]
    exact mem_dictInsert_self _ _ _

/-- C7 witness: the amended sanitisation facts instantiated at a concrete
request with a `host` header and one credential. -/
theorem C7_sanitization_witness :
    c7Att.headers = dictInsert "x-goog-api-key" c7Att.key (sanitizeHeaders c7Inp.headers) ∧
    (∀ kv ∈ c7Att.headers,
      lowerStr kv.1 ∉ (["host", "x-real-ip", "x-forwarded-for", "x-forwarded-proto",
        "x-vercel-id", "x-vercel-deployment-url", "x-vercel-proxied-for"] : List String)) ∧
    (∀ kv ∈ c7Att.headers, lowerStr kv.1 = "x-goog-api-key" → kv = ("x-goog-api-key", c7Att.key)) ∧
    ("User-Agent", USER_AGENT) ∈ c7Att.headers :=
  C7_sanitization c7Inp id c7Up c7Att (by decide)

/-- C8: when both the credential header and the environment variable parse
to an empty list (comma-split, trimmed, empties dropped), the handler
returns status 400 with the JSON error body and performs zero upstream
attempts; and whenever the header source parses non-empty it takes
precedence over the environment source. -/
theorem C8_missing_credentials (inp : ProxyInput) (shuffle : List String → List String)
    (upstream : Nat → Outcome)
    (hh : parseKeys (headersGet inp.headers "x-goog-api-key") = [])
    (he : parseKeys inp.envKeys = []) :
    (proxy_to_gemini inp shuffle upstream).result =
      .ok { status := 400, headers := [], body := MISSING_KEYS_BODY,
            mediaType := some "application/json", isStream := false } ∧
    (proxy_to_gemini inp shuffle upstream).attempts = [] ∧
    (∀ inp2 : ProxyInput, parseKeys (headersGet inp2.headers "x-goog-api-key") ≠ [] →
      extractKeys inp2.headers inp2.envKeys =
        parseKeys (headersGet inp2.headers "x-goog-api-key")) := by
  have hext : extractKeys inp.headers inp.envKeys = [] := by
    simp [extractKeys, hh, he]
  rw [proxy_empty inp shuffle upstream hext]
  refine ⟨rfl, rfl, ?_⟩
  intro inp2 h2
  simp [extractKeys, h2]

/-- C8 witness: a credential header of separators and whitespace plus a
whitespace-only environment variable yield the 400 error with no
attempts, and a non-empty header beats the environment source. -/
theorem C8_missing_credentials_witness :
    (proxy_to_gemini { path := "v1/models", headers := [("x-goog-api-key", " , ,")],
                       rawBody := "", envKeys := "  " } id
       (fun _ => Outcome.resp { status := 200, headers := [], body := "ok" })).result =
      .ok { status := 400, headers := [], body := MISSING_KEYS_BODY,
            mediaType := some "application/json", isStream := false } ∧
    (proxy_to_gemini { path := "v1/models", headers := [("x-goog-api-key", " , ,")],
                       rawBody := "", envKeys := "  " } id
       (fun _ => Outcome.resp { status := 200, headers := [], body := "ok" })).attempts = [] ∧
    (∀ inp2 : ProxyInput, parseKeys (headersGet inp2.headers "x-goog-api-key") ≠ [] →
      extractKeys inp2.headers inp2.envKeys =
        parseKeys (headersGet inp2.headers "x-goog-api-key")) :=
  C8_missing_credentials _ id _ (by decide) (by decide)

/-- C9: a network-level failure on an attempt records status 502 together
with the error-description body as the latest failure and the loop
continues, so when every credential fails at the network level all of
them are attempted and the caller receives 502 with the body built from
the last error description; the fallback carried by the initial state —
used when nothing was ever recorded — is status 500 with no body. -/
theorem C9_network_failures (inp : ProxyInput) (shuffle : List String → List String)
    (upstream : Nat → Outcome) (d : String)
    (hsh : ∀ l, (shuffle l).Perm l)
    (hne : extractKeys inp.headers inp.envKeys ≠ [])
    (hall : ∀ j, j < (shuffle (extractKeys inp.headers inp.envKeys)).length →
        ∃ dj, upstream j = .netError dj)
    (hlast : upstream ((shuffle (extractKeys inp.headers inp.envKeys)).length - 1) =
        .netError d) :
    (proxy_to_gemini inp shuffle upstream).result =
      .ok { status := 502, headers := [], body := netErrBody d,
            mediaType := some "application/json", isStream := false } ∧
    (proxy_to_gemini inp shuffle upstream).attempts.length =
      (shuffle (extractKeys inp.headers inp.envKeys)).length ∧
    initState.lastStatus = 500 ∧ initState.lastError = none := by
  have hkeys := shuffle_ne_empty shuffle (extractKeys inp.headers inp.envKeys) hsh hne
  rw [proxy_ne_empty inp shuffle upstream hne]
  obtain ⟨hlen, hres⟩ := runLoop_all_fail (isStreaming inp.path) (sanitizeHeaders inp.headers)
    inp.rawBody upstream (shuffle (extractKeys inp.headers inp.envKeys)) 0 initState
    (502, netErrBody d) hkeys
    (by
      intro j hj
      obtain ⟨dj, hdj⟩ := hall j hj
      rw [Nat.zero_add, hdj]
      simp [recordedFailure])
    (by rw [Nat.zero_add, hlast]; rfl)
  exact ⟨hres, hlen, rfl, rfl⟩

/-- C9 witness: two credentials, both failing at the network level; both
are attempted and the caller receives 502 with the second error body. -/
theorem C9_network_failures_witness :
    (proxy_to_gemini { path := "v1/models", headers := [("x-goog-api-key", "k1,k2")],
                       rawBody := "", envKeys := "" } id
       (fun j => Outcome.netError (if j = 0 then "refused" else "timeout"))).result =
      .ok { status := 502, headers := [], body := netErrBody "timeout",
            mediaType := some "application/json", isStream := false } ∧
    (proxy_to_gemini { path := "v1/models", headers := [("x-goog-api-key", "k1,k2")],
                       rawBody := "", envKeys := "" } id
       (fun j => Outcome.netError (if j = 0 then "refused" else "timeout"))).attempts.length =
      (id (extractKeys [("x-goog-api-key", "k1,k2")] "")).length ∧
    initState.lastStatus = 500 ∧ initState.lastError = none :=
  C9_network_failures _ id _ "timeout" (fun l => List.Perm.refl l) (by decide)
    (fun j _ => ⟨if j = 0 then "refused" else "timeout", rfl⟩) rfl

/-- C10: on a non-streaming request, any upstream response with status
strictly below 400 — including informational statuses below 200 — ends
the loop at that attempt and is relayed to the caller as a buffered
success, no matter how many credentials remain. -/
theorem C10_sub400_success (sanitized : List (String × String)) (rawBody : String)
    (upstream : Nat → Outcome) (key : String) (rest : List String) (i : Nat)
    (st : LoopState) (r : UpstreamResp)
    (hui : upstream i = .resp r) (hlt : r.status < 400) :
    (runLoop false sanitized rawBody upstream (key :: rest) i st).2.2 =
      .ok { status := r.status, headers := filterEncoding r.headers, body := r.body,
            mediaType := headersGetOpt r.headers "content-type", isStream := false } ∧
    (runLoop false sanitized rawBody upstream (key :: rest) i st).1.length = 1 := by
  have hstep := stepAttempt_buf_success rawBody r st hlt
  rw [← hui] at hstep
  rw [runLoop_cons_done false sanitized rawBody upstream key rest i st _ _ _ hstep]
  exact ⟨rfl, rfl⟩

/-- C10 witness: a status-100 response (below the spec's stated success
range) at the first of two credentials terminates the loop and is
returned as the success. -/
theorem C10_sub400_success_witness :
    ((runLoop false [] "" (fun _ => Outcome.resp { status := 100, headers := [], body := "interim" })
        ["k1", "k2"] 0 initState).2.2 =
      .ok { status := 100, headers := [], body := "interim",
            mediaType := none, isStream := false }) ∧
    ((runLoop false [] "" (fun _ => Outcome.resp { status := 100, headers := [], body := "interim" })
        ["k1", "k2"] 0 initState).1.length = 1) :=
  C10_sub400_success [] "" _ "k1" ["k2"] 0 initState
    { status := 100, headers := [], body := "interim" } rfl (by decide)

end GeminiProxy
